import Mathlib

/-!
Shallow embedding of the document reconciliation engine of
`src/backend/app.py` (function `perform_matching_logic`, lines 96-156),
together with theorems settling the specification claims.

Python dictionaries with optional keys are embedded as structures with
`Option` fields: `dict.get(k)` becomes the field itself, `dict.get(k, d)`
becomes `Option.getD`.  Monetary amounts (Python floats holding decimal
amounts) are embedded as rationals `ℚ`.  Python truthiness of an optional
string (`if d.get('vendor')`) is `pyTruthy`.  The f-string rendering of a
possibly-missing string value (Python prints `None`) is `pyShowOptStr`, and
the `:.2f` float format is `fmt2` (round half to even at two decimals).
-/

namespace InvoiceMatcher

/-- One entry of a document's `items` list (schema of `ai_extract_data`,
lines 52-64 of `src/backend/app.py`); every field may be absent. -/
structure LineItem where
  description : Option String := none
  quantity : Option Int := none
  unit_price : Option ℚ := none
  line_total : Option ℚ := none
deriving Repr, DecidableEq

/-- An extracted document (invoice or purchase order): the dictionary shape
consumed by `perform_matching_logic`; every key may be absent. -/
structure Document where
  id : Option String := none
  vendor : Option String := none
  total : Option ℚ := none
  items : Option (List LineItem) := none
deriving Repr, DecidableEq

/-- Python truthiness of `d.get(key)` for a string-valued key: `None` and
the empty string are falsy. -/
def pyTruthy : Option String → Bool
  | none => false
  | some s => s != ""

/-- How a Python f-string renders a possibly-missing string value:
`None` when the key is absent, the string itself otherwise. -/
def pyShowOptStr : Option String → String
  | none => "None"
  | some s => s

/-- Round a rational to the nearest integer, ties to even
(the rounding of Python float formatting). -/
def roundHalfEven (q : ℚ) : Int :=
  let f := ⌊q⌋
  let r := q - f
  if r < 1/2 then f
  else if 1/2 < r then f + 1
  else if f % 2 = 0 then f else f + 1

/-- Left-pad a two-digit cent count with a zero. -/
def pad2 (n : Nat) : String :=
  if n < 10 then "0" ++ toString n else toString n

/-- The Python `:.2f` format on an amount: two decimal places. -/
def fmt2 (q : ℚ) : String :=
  let c := roundHalfEven (q * 100)
  let sign := if c < 0 then "-" else ""
  let a := c.natAbs
  sign ++ toString (a / 100) ++ "." ++ pad2 (a % 100)

/-- Python `str.strip()`: drop whitespace from both ends. -/
def pyStrip (s : String) : String :=
  ⟨((s.data.dropWhile Char.isWhitespace).reverse.dropWhile
      Char.isWhitespace).reverse⟩

/-- Python `str.lower()`: lower-case every character. -/
def pyLower (s : String) : String :=
  ⟨s.data.map Char.toLower⟩

/-- `tolerance = 0.01` (line 119 of `src/backend/app.py`). -/
def tolerance : ℚ := 1/100

/-- The vendor check (line 107): the invoice vendor must be truthy (present
and non-empty) and equal to the PO vendor (defaulted to `""`) after
stripping and lower-casing. -/
def vendor_ok (invoice_data po_data : Document) : Bool :=
  pyTruthy invoice_data.vendor &&
    (pyLower (pyStrip (invoice_data.vendor.getD "")) ==
      pyLower (pyStrip (po_data.vendor.getD "")))

/-- The explanation the vendor check appends (lines 108 and 110). -/
def vendorFinding (invoice_data po_data : Document) : String :=
  if vendor_ok invoice_data po_data then
    "✅ Vendor matches: " ++ pyShowOptStr invoice_data.vendor
  else
    "⚠️ VENDOR MISMATCH: Invoice Vendor \x27" ++ pyShowOptStr invoice_data.vendor ++
      "\x27 does not match PO Vendor \x27" ++ pyShowOptStr po_data.vendor ++ "\x27"

/-- The identifier check sets no flag: line 113 appends its explanation
unconditionally, so as a check it always passes. -/
def id_ok : Bool := true

/-- The explanation the identifier line appends (line 113). -/
def idFinding (invoice_data po_data : Document) : String :=
  "✅ Invoice ID (" ++ pyShowOptStr invoice_data.id ++
    ") matched against PO ID (" ++ pyShowOptStr po_data.id ++ ")"

/-- The total check (lines 116-121): absolute difference of the totals
(absent treated as `0`) strictly below the tolerance. -/
def total_ok (invoice_data po_data : Document) : Bool :=
  decide (|invoice_data.total.getD 0 - po_data.total.getD 0| < tolerance)

/-- The explanation the total check appends (lines 122 and 125). -/
def totalFinding (invoice_data po_data : Document) : String :=
  let inv_total := invoice_data.total.getD 0
  let po_total := po_data.total.getD 0
  if total_ok invoice_data po_data then
    "✅ Total amount matches: $" ++ fmt2 inv_total
  else
    "⚠️ TOTAL MISMATCH: Invoice Total ($" ++ fmt2 inv_total ++
      ") differs from PO Total ($" ++ fmt2 po_total ++ "). Difference: $" ++
      fmt2 |inv_total - po_total|

/-- `sum(item.get('line_total', 0) for item in items)` (lines 137-138). -/
def itemSum (items : List LineItem) : ℚ :=
  (items.map (fun item => item.line_total.getD 0)).sum

/-- The line item check (lines 129-145): counts must agree, and then the
two line-total sums must differ by strictly less than the tolerance. -/
def line_ok (invoice_data po_data : Document) : Bool :=
  let inv_items := invoice_data.items.getD []
  let po_items := po_data.items.getD []
  if inv_items.length != po_items.length then false
  else decide (|itemSum inv_items - itemSum po_items| < tolerance)

/-- The explanation the line item check appends (lines 133, 141, 144). -/
def lineFinding (invoice_data po_data : Document) : String :=
  let inv_items := invoice_data.items.getD []
  let po_items := po_data.items.getD []
  if inv_items.length != po_items.length then
    "⚠️ LINE ITEM COUNT MISMATCH: Invoice has " ++ toString inv_items.length ++
      " items, PO has " ++ toString po_items.length ++ " items."
  else if decide (|itemSum inv_items - itemSum po_items| < tolerance) then
    "✅ All line items and line totals appear correct (Line Sum: $" ++
      fmt2 (itemSum inv_items) ++ ")"
  else
    "⚠️ LINE ITEM TOTAL MISMATCH: Sum of line items differs by $" ++
      fmt2 |itemSum inv_items - itemSum po_items| ++
      ". Check quantity/price of individual items."

/-- `is_match` after all checks have run (lines 99, 111, 126, 134, 145):
it starts `True` and each failing check sets it `False`; the identifier
line never touches it. -/
def is_match (invoice_data po_data : Document) : Bool :=
  vendor_ok invoice_data po_data && total_ok invoice_data po_data &&
    line_ok invoice_data po_data

/-- `final_status` (line 148). -/
def final_status (invoice_data po_data : Document) : String :=
  if is_match invoice_data po_data then "APPROVED" else "NEEDS REVIEW"

/-- The final value of the summary slot `explanations[0]`
(lines 151-154). -/
def summaryFinding (invoice_data po_data : Document) : String :=
  if is_match invoice_data po_data then
    "✅ Perfect Match! Status: APPROVED - No issues found."
  else
    "⚠️ Mismatch Found. Status: " ++ final_status invoice_data po_data ++
      " - Flagged for Finance Review."

/-- `perform_matching_logic` (lines 96-156): the placeholder header is
appended first, each check appends one explanation in order, and index 0
is overwritten with the final summary before returning. -/
def perform_matching_logic (invoice_data po_data : Document) :
    String × List String :=
  let explanations : List String :=
    ["Running 3-Way Match (Header, Total, Line Items)...",
     vendorFinding invoice_data po_data,
     idFinding invoice_data po_data,
     totalFinding invoice_data po_data,
     lineFinding invoice_data po_data]
  let explanations := explanations.set 0 (summaryFinding invoice_data po_data)
  (final_status invoice_data po_data, explanations)

/-- Observational equality of line items from the engine's point of view:
only `line_total` is ever read by a check. -/
def LineItemObsEq (a b : LineItem) : Prop :=
  a.line_total = b.line_total

/-- Observational equality of documents from the engine's point of view:
identical ids, vendors and totals, and item lists of the same length whose
items agree on `line_total`. -/
def DocObsEq (a b : Document) : Prop :=
  a.id = b.id ∧ a.vendor = b.vendor ∧ a.total = b.total ∧
    List.Forall₂ LineItemObsEq (a.items.getD []) (b.items.getD [])

/-! ## Helper lemmas -/

/-- The returned pair, spelled out: the status and the five explanations
with the summary written into slot 0. -/
lemma perform_matching_logic_eq (inv po : Document) :
    perform_matching_logic inv po =
      (final_status inv po,
       [summaryFinding inv po, vendorFinding inv po, idFinding inv po,
        totalFinding inv po, lineFinding inv po]) := rfl

/-- Item lists that agree pointwise on `line_total` have the same sum. -/
lemma itemSum_eq_of_forall2 {l1 l2 : List LineItem}
    (h : List.Forall₂ LineItemObsEq l1 l2) : itemSum l1 = itemSum l2 := by
  induction h with
  | nil => rfl
  | cons h1 _ ih =>
      simp only [LineItemObsEq] at h1
      simp only [itemSum, List.map_cons, List.sum_cons] at *
      rw [h1, ih]

/-- The engine reads its inputs only through the ids, the vendors, the
defaulted totals, and the lengths and `line_total`-sums of the defaulted
item lists: agreement there makes the outputs equal. -/
lemma reconcile_congr (i1 p1 i2 p2 : Document)
    (hid : i1.id = i2.id) (hpid : p1.id = p2.id)
    (hv : i1.vendor = i2.vendor) (hpv : p1.vendor = p2.vendor)
    (ht : i1.total.getD 0 = i2.total.getD 0)
    (hpt : p1.total.getD 0 = p2.total.getD 0)
    (hl : (i1.items.getD []).length = (i2.items.getD []).length)
    (hs : itemSum (i1.items.getD []) = itemSum (i2.items.getD []))
    (hpl : (p1.items.getD []).length = (p2.items.getD []).length)
    (hps : itemSum (p1.items.getD []) = itemSum (p2.items.getD [])) :
    perform_matching_logic i1 p1 = perform_matching_logic i2 p2 := by
  simp only [perform_matching_logic, final_status, is_match, summaryFinding,
    vendor_ok, vendorFinding, idFinding, total_ok, totalFinding, line_ok,
    lineFinding, hid, hpid, hv, hpv, ht, hpt, hl, hs, hpl, hps]

/-! ## Claims -/

/-- C1 (counterexample): reconciling a document with an empty vendor string
against itself does not yield APPROVED — the vendor check fails even though
the two documents are identical, so reflexivity of reconciliation fails as
stated. -/
theorem c1_reflexivity_counterexample :
    (perform_matching_logic
        { id := some "INV-001", vendor := some "", total := some 100,
          items := some [] }
        { id := some "INV-001", vendor := some "", total := some 100,
          items := some [] }).1 ≠ "APPROVED" ∧
    vendor_ok
        { id := some "INV-001", vendor := some "", total := some 100,
          items := some [] }
        { id := some "INV-001", vendor := some "", total := some 100,
          items := some [] } = false := by
  exact ⟨by decide, by decide⟩

/-- C1 (amended): for every document D whose vendor field is present and
non-empty, reconciling D against itself yields the verdict APPROVED, with
each of the four checks (vendor, identifier, total, line items)
individually passing. -/
theorem c1_reconcile_self_approved (D : Document)
    (h : pyTruthy D.vendor = true) :
    vendor_ok D D = true ∧ id_ok = true ∧ total_ok D D = true ∧
      line_ok D D = true ∧ (perform_matching_logic D D).1 = "APPROVED" := by
  have hv : vendor_ok D D = true := by simp [vendor_ok, h]
  have ht : total_ok D D = true := by simp [total_ok, tolerance]
  have hl : line_ok D D = true := by simp [line_ok, tolerance]
  refine ⟨hv, rfl, ht, hl, ?_⟩
  simp [perform_matching_logic, final_status, is_match, hv, ht, hl]

/-- C1 (witness): the amended reflexivity theorem applied to a concrete
document with a non-empty vendor. -/
theorem c1_reconcile_self_approved_witness :
    pyTruthy ({ id := some "INV-1", vendor := some "Acme",
                total := some 100, items := some [] } : Document).vendor
      = true ∧
    (perform_matching_logic
        { id := some "INV-1", vendor := some "Acme", total := some 100,
          items := some [] }
        { id := some "INV-1", vendor := some "Acme", total := some 100,
          items := some [] }).1 = "APPROVED" :=
  ⟨by decide,
   (c1_reconcile_self_approved
      { id := some "INV-1", vendor := some "Acme", total := some 100,
        items := some [] } (by decide)).2.2.2.2⟩

/-- C2 (counterexample): both vendor strings empty — equal after trimming
and lower-casing — yet the vendor check fails, because the code first
requires the invoice vendor to be truthy. -/
theorem c2_vendor_check_counterexample :
    pyLower (pyStrip ((some "" : Option String).getD "")) =
      pyLower (pyStrip ((some "" : Option String).getD "")) ∧
    vendor_ok { vendor := some "" } { vendor := some "" } = false :=
  ⟨rfl, by decide⟩

/-- C2 (amended): the vendor check passes exactly when the invoice vendor
is present and non-empty and the two vendor strings are equal after
trimming and lower-casing; on failure the vendor finding reports both raw
vendor strings verbatim (not lower-cased; an absent vendor is rendered as
None). -/
theorem c2_vendor_check_characterization (inv po : Document) :
    (vendor_ok inv po = true ↔
      (pyTruthy inv.vendor = true ∧
        pyLower (pyStrip (inv.vendor.getD "")) =
          pyLower (pyStrip (po.vendor.getD "")))) ∧
    (vendor_ok inv po = false →
      (perform_matching_logic inv po).2.get? 1 =
        some ("⚠️ VENDOR MISMATCH: Invoice Vendor \x27" ++
          pyShowOptStr inv.vendor ++ "\x27 does not match PO Vendor \x27" ++
          pyShowOptStr po.vendor ++ "\x27")) := by
  constructor
  · simp [vendor_ok]
  · intro h
    have hget : (perform_matching_logic inv po).2.get? 1 =
        some (vendorFinding inv po) := rfl
    rw [hget]
    simp [vendorFinding, h]

/-- C2 (witness): the vendor-check characterization applied to a concrete
mismatching pair, exhibiting the raw strings in the finding. -/
theorem c2_vendor_check_witness :
    vendor_ok { vendor := some "Acme" } { vendor := some "Globex" } = false ∧
    (perform_matching_logic { vendor := some "Acme" }
        { vendor := some "Globex" }).2.get? 1 =
      some ("⚠️ VENDOR MISMATCH: Invoice Vendor \x27" ++
        pyShowOptStr (({ vendor := some "Acme" } : Document).vendor) ++
        "\x27 does not match PO Vendor \x27" ++
        pyShowOptStr (({ vendor := some "Globex" } : Document).vendor) ++
        "\x27") :=
  ⟨by decide,
   (c2_vendor_check_characterization { vendor := some "Acme" }
      { vendor := some "Globex" }).2 (by decide)⟩

/-- C3: the verdict is APPROVED iff all four checks pass and NEEDS REVIEW
otherwise, and the findings list always consists of the summary followed by
the vendor, identifier, total and line-item findings — every check runs and
appends its finding even after an earlier failure. -/
theorem c3_verdict_iff_all_checks (inv po : Document) :
    ((perform_matching_logic inv po).1 = "APPROVED" ↔
      (vendor_ok inv po = true ∧ id_ok = true ∧ total_ok inv po = true ∧
        line_ok inv po = true)) ∧
    ((perform_matching_logic inv po).1 ≠ "APPROVED" →
      (perform_matching_logic inv po).1 = "NEEDS REVIEW") ∧
    (perform_matching_logic inv po).2 =
      [summaryFinding inv po, vendorFinding inv po, idFinding inv po,
       totalFinding inv po, lineFinding inv po] := by
  have hs : (perform_matching_logic inv po).1 = final_status inv po := rfl
  refine ⟨?_, ?_, rfl⟩
  · rw [hs]
    unfold final_status is_match
    cases hv : vendor_ok inv po <;> cases ht : total_ok inv po <;>
      cases hl : line_ok inv po <;> simp [id_ok]
  · rw [hs]
    unfold final_status
    cases hm : is_match inv po <;> simp

/-- C3 (witness): the verdict characterization applied to a concrete pair
that fails the total check, yielding NEEDS REVIEW. -/
theorem c3_verdict_witness :
    (perform_matching_logic { vendor := some "Acme", total := some 20 }
        { vendor := some "Acme", total := some 10 }).1 ≠ "APPROVED" ∧
    (perform_matching_logic { vendor := some "Acme", total := some 20 }
        { vendor := some "Acme", total := some 10 }).1 = "NEEDS REVIEW" := by
  have ht : total_ok { vendor := some "Acme", total := some 20 }
      { vendor := some "Acme", total := some 10 } = false := by
    norm_num [total_ok, tolerance, abs_of_nonneg]
  have hm : (perform_matching_logic { vendor := some "Acme", total := some 20 }
      { vendor := some "Acme", total := some 10 }).1 = "NEEDS REVIEW" := by
    simp [perform_matching_logic, final_status, is_match, ht]
  exact ⟨by rw [hm]; decide,
    (c3_verdict_iff_all_checks { vendor := some "Acme", total := some 20 }
      { vendor := some "Acme", total := some 10 }).2.1 (by rw [hm]; decide)⟩

/-- C4: the total check passes exactly when the absolute difference of the
two totals (absent treated as 0) is strictly below 0.01; any difference at
most 0.009 passes and any difference of at least 0.01 fails. -/
theorem c4_total_check_boundary (inv po : Document) :
    (total_ok inv po = true ↔
      |inv.total.getD 0 - po.total.getD 0| < 1/100) ∧
    (|inv.total.getD 0 - po.total.getD 0| ≤ 9/1000 →
      total_ok inv po = true) ∧
    (1/100 ≤ |inv.total.getD 0 - po.total.getD 0| →
      total_ok inv po = false) := by
  have hiff : total_ok inv po = true ↔
      |inv.total.getD 0 - po.total.getD 0| < 1/100 := by
    simp [total_ok, tolerance]
  refine ⟨hiff, fun h => hiff.mpr (lt_of_le_of_lt h (by norm_num)),
    fun h => ?_⟩
  simp only [total_ok, tolerance]
  exact decide_eq_false (not_lt.mpr h)

/-- C4 (witness): the boundary theorem applied to totals 10.009 and 10
(difference 0.009: passes) and to totals 10.01 and 10 (difference 0.01:
fails). -/
theorem c4_total_check_witness :
    total_ok { total := some (10009/1000) } { total := some 10 } = true ∧
    total_ok { total := some (1001/100) } { total := some 10 } = false :=
  ⟨(c4_total_check_boundary { total := some (10009/1000) }
      { total := some 10 }).2.1 (by norm_num [abs_of_nonneg]),
   (c4_total_check_boundary { total := some (1001/100) }
      { total := some 10 }).2.2 (by norm_num [abs_of_nonneg])⟩

/-- C5: a line-item count mismatch makes the line item check fail with a
finding built only from the two counts (no sum is computed or reported);
with equal counts the check passes exactly when the two line-total sums
differ by strictly less than 0.01. -/
theorem c5_line_item_check (inv po : Document) :
    ((inv.items.getD []).length ≠ (po.items.getD []).length →
      line_ok inv po = false ∧
      lineFinding inv po =
        "⚠️ LINE ITEM COUNT MISMATCH: Invoice has " ++
          toString (inv.items.getD []).length ++ " items, PO has " ++
          toString (po.items.getD []).length ++ " items.") ∧
    ((inv.items.getD []).length = (po.items.getD []).length →
      (line_ok inv po = true ↔
        |itemSum (inv.items.getD []) - itemSum (po.items.getD [])| <
          1/100)) := by
  constructor
  · intro h
    have hb : ((inv.items.getD []).length !=
        (po.items.getD []).length) = true := by simp [h]
    exact ⟨by simp [line_ok, hb], by simp [lineFinding, hb]⟩
  · intro h
    have hb : ((inv.items.getD []).length !=
        (po.items.getD []).length) = false := by simp [h]
    simp [line_ok, hb, tolerance]

/-- C5 (witness): the line item check applied to an invoice with 2 items
and a PO with 3 items — the check fails and the finding reports the two
counts. -/
theorem c5_line_item_witness :
    line_ok { items := some [{}, {}] } { items := some [{}, {}, {}] }
      = false ∧
    lineFinding { items := some [{}, {}] } { items := some [{}, {}, {}] } =
      "⚠️ LINE ITEM COUNT MISMATCH: Invoice has " ++
        toString ((({ items := some [{}, {}] } : Document).items.getD
          []).length) ++ " items, PO has " ++
        toString ((({ items := some [{}, {}, {}] } : Document).items.getD
          []).length) ++ " items." :=
  (c5_line_item_check { items := some [{}, {}] }
    { items := some [{}, {}, {}] }).1 (by decide)

/-- C6: for every pair of documents the findings list has exactly 5 entries
in fixed order: the summary at index 0, then the vendor, identifier, total
and line-item findings. -/
theorem c6_report_shape (inv po : Document) :
    (perform_matching_logic inv po).2.length = 5 ∧
    (perform_matching_logic inv po).2 =
      [summaryFinding inv po, vendorFinding inv po, idFinding inv po,
       totalFinding inv po, lineFinding inv po] :=
  ⟨rfl, rfl⟩

/-- C7: the identifier finding (index 2) always reports the two ids as
matched, whatever they are, and the verdict is unchanged under any
replacement of either document's id — the identifier check never
contributes a failure. -/
theorem c7_identifier_informational (inv po : Document)
    (i1 i2 p1 p2 : Option String) :
    (perform_matching_logic inv po).2.get? 2 =
      some ("✅ Invoice ID (" ++ pyShowOptStr inv.id ++
        ") matched against PO ID (" ++ pyShowOptStr po.id ++ ")") ∧
    (perform_matching_logic { inv with id := i1 } { po with id := p1 }).1 =
      (perform_matching_logic { inv with id := i2 } { po with id := p2 }).1 :=
  ⟨rfl, rfl⟩

/-- C8: an absent total is reconciled exactly like a total of 0, an item
with an absent line_total is reconciled exactly like one with line_total 0,
and reconciliation always completes with one of the two verdicts and a full
five-entry findings list. -/
theorem c8_absent_numeric_defaults (inv po : Document)
    (pre post : List LineItem) (it : LineItem) :
    (perform_matching_logic { inv with total := none } po =
      perform_matching_logic { inv with total := some 0 } po) ∧
    (perform_matching_logic inv { po with total := none } =
      perform_matching_logic inv { po with total := some 0 }) ∧
    (it.line_total = none →
      perform_matching_logic { inv with items := some (pre ++ it :: post) }
          po =
        perform_matching_logic
          { inv with
            items := some (pre ++ { it with line_total := some 0 } :: post) }
          po) ∧
    (it.line_total = none →
      perform_matching_logic inv
          { po with items := some (pre ++ it :: post) } =
        perform_matching_logic inv
          { po with
            items := some (pre ++ { it with line_total := some 0 } :: post) }) ∧
    ((perform_matching_logic inv po).1 = "APPROVED" ∨
      (perform_matching_logic inv po).1 = "NEEDS REVIEW") ∧
    (perform_matching_logic inv po).2.length = 5 := by
  refine ⟨rfl, rfl, fun h => ?_, fun h => ?_, ?_, rfl⟩
  · apply reconcile_congr <;> simp [itemSum, h]
  · apply reconcile_congr <;> simp [itemSum, h]
  · show final_status inv po = _ ∨ final_status inv po = _
    unfold final_status
    cases hm : is_match inv po <;> simp

/-- C8 (witness): the line_total-default clauses applied to a concrete
one-item list with no line_total, on the invoice side and on the PO
side. -/
theorem c8_absent_numeric_witness :
    ({} : LineItem).line_total = none ∧
    perform_matching_logic
        { items := some [{ line_total := none }] } {} =
      perform_matching_logic
        { items := some [{ line_total := some 0 }] } {} ∧
    perform_matching_logic {}
        { items := some [{ line_total := none }] } =
      perform_matching_logic {}
        { items := some [{ line_total := some 0 }] } :=
  ⟨rfl, (c8_absent_numeric_defaults {} {} [] [] {}).2.2.1 rfl,
   (c8_absent_numeric_defaults {} {} [] [] {}).2.2.2.1 rfl⟩

/-- C9: the vendor check passes only when the invoice vendor is truthy
(present and non-empty); a falsy invoice vendor fails the check whatever
the PO vendor is; and the check is not symmetric: invoice vendor a single
space against PO vendor the empty string passes, while the swapped pair
fails. -/
theorem c9_vendor_check_asymmetry :
    (∀ inv po : Document, vendor_ok inv po = true →
      pyTruthy inv.vendor = true) ∧
    (∀ inv po : Document, pyTruthy inv.vendor = false →
      vendor_ok inv po = false) ∧
    vendor_ok { vendor := some " " } { vendor := some "" } = true ∧
    vendor_ok { vendor := some "" } { vendor := some " " } = false := by
  refine ⟨?_, ?_, by decide, by decide⟩
  · intro inv po h
    simp only [vendor_ok, Bool.and_eq_true] at h
    exact h.1
  · intro inv po h
    simp [vendor_ok, h]

/-- C9 (witness): the truthiness consequence applied to a concrete passing
pair. -/
theorem c9_vendor_check_witness :
    vendor_ok { vendor := some "Acme" } { vendor := some "Acme" } = true ∧
    pyTruthy ({ vendor := some "Acme" } : Document).vendor = true :=
  ⟨by decide,
   c9_vendor_check_asymmetry.1 { vendor := some "Acme" }
     { vendor := some "Acme" } (by decide)⟩

/-- C10: two runs whose inputs agree on ids, vendors, totals, item counts
and the items' line_total values — differing only in fields no check reads,
such as description, quantity or unit_price — produce identical output:
the same verdict and the same findings list. -/
theorem c10_noninterference (i1 p1 i2 p2 : Document)
    (hi : DocObsEq i1 i2) (hp : DocObsEq p1 p2) :
    perform_matching_logic i1 p1 = perform_matching_logic i2 p2 := by
  obtain ⟨hid, hv, ht, hl⟩ := hi
  obtain ⟨hpid, hpv, hpt, hpl⟩ := hp
  exact reconcile_congr i1 p1 i2 p2 hid hpid hv hpv (by rw [ht]) (by rw [hpt])
    hl.length_eq (itemSum_eq_of_forall2 hl)
    hpl.length_eq (itemSum_eq_of_forall2 hpl)

/-- C10 (witness): noninterference applied to two concrete runs whose
invoices differ only in an item description and quantity. -/
theorem c10_noninterference_witness :
    DocObsEq
      { vendor := some "Acme", total := some 10,
        items := some [{ description := some "widget", quantity := some 1,
                         line_total := some 10 }] }
      { vendor := some "Acme", total := some 10,
        items := some [{ description := some "gadget", quantity := some 7,
                         line_total := some 10 }] } ∧
    perform_matching_logic
        { vendor := some "Acme", total := some 10,
          items := some [{ description := some "widget", quantity := some 1,
                           line_total := some 10 }] }
        { vendor := some "Acme", total := some 10, items := some [] } =
      perform_matching_logic
        { vendor := some "Acme", total := some 10,
          items := some [{ description := some "gadget", quantity := some 7,
                           line_total := some 10 }] }
        { vendor := some "Acme", total := some 10, items := some [] } :=
  ⟨⟨rfl, rfl, rfl, List.Forall₂.cons rfl List.Forall₂.nil⟩,
   c10_noninterference
     { vendor := some "Acme", total := some 10,
       items := some [{ description := some "widget", quantity := some 1,
                        line_total := some 10 }] }
     { vendor := some "Acme", total := some 10, items := some [] }
     { vendor := some "Acme", total := some 10,
       items := some [{ description := some "gadget", quantity := some 7,
                        line_total := some 10 }] }
     { vendor := some "Acme", total := some 10, items := some [] }
     ⟨rfl, rfl, rfl, List.Forall₂.cons rfl List.Forall₂.nil⟩
     ⟨rfl, rfl, rfl, List.Forall₂.nil⟩⟩

end InvoiceMatcher
